import Mathlib

/-!
Shallow embedding of the core of `reddit_persona_generator.py`:
the `PersonaAnalyzer` heuristic engine and the parts of
`PersonaReportGenerator.generate_text_report` that the verified
properties refer to (the personality gauges and the
REPRESENTATIVE QUOTE section).

Python strings are modelled as `String` / `List Char` (one element per
code point, matching Python `len` and slicing).  `str.lower()` is
modelled by `Char.toLower` (faithful on the ASCII keyword tables the
analyzer uses).  `str.count` (non-overlapping substring count) and the
`in` containment test are implemented below.  Python float expressions
of the form `int((a / total) * 100)` are modelled as exact integer
arithmetic `a * 100 / total`, i.e. the quotient truncated toward zero.

Two ambient effects of the source are made explicit parameters:
the wall clock read `datetime.now()` becomes a `now : String` argument,
and the iteration order of `list(set(...))` — which in CPython depends
on randomized string hashing and so varies between interpreter
processes — becomes a `SetOrder` oracle argument; a run of the program
corresponds to an `Admissible` oracle, one returning some permutation
of the distinct elements.
-/

/-- Data shape produced by `RedditScraper.get_user_posts`. -/
structure Post where
  id : String
  title : String
  selftext : String
  subreddit : String
  score : Int
  created_utc : Nat
  url : String
  num_comments : Nat
deriving DecidableEq

/-- Data shape produced by `RedditScraper.get_user_comments`. -/
structure Comment where
  id : String
  body : String
  subreddit : String
  score : Int
  created_utc : Nat
  url : String
  link_title : String
deriving DecidableEq

/-- Result of `PersonaAnalyzer.analyze_demographics`. -/
structure Demographics where
  age : String
  occupation : String
  status : String
  location : String
deriving DecidableEq

/-- Result of `PersonaAnalyzer.analyze_personality_traits`: the four
axis scores plus the qualitative characteristics list. -/
structure Personality where
  introvert_extrovert : Nat
  intuition_sensing : Nat
  feeling_thinking : Nat
  perceiving_judging : Nat
  characteristics : List String
deriving DecidableEq

/-- The persona record built by `PersonaAnalyzer.generate_persona`. -/
structure Persona where
  username : String
  profile_url : String
  analysis_date : String
  total_posts : Nat
  total_comments : Nat
  demographics : Demographics
  personality : Personality
  motivations : List (String × Nat)
  behaviors : List String
  frustrations : List String
  goals : List String
  raw_posts : List Post
  raw_comments : List Comment
deriving DecidableEq

/-- Python `sub in text` (substring containment), on code points. -/
def containsSub (sub : List Char) : List Char → Bool
  | [] => sub.isPrefixOf []
  | c :: rest => sub.isPrefixOf (c :: rest) || containsSub sub rest

/-- Worker for `pyCount`.  The fuel argument only guarantees
structural recursion; `fuel = text.length` is always enough because
every step drops at least one character of the text. -/
def pyCountAux (sub : List Char) : Nat → List Char → Nat
  | 0, _ => 0
  | _ + 1, [] => 0
  | fuel + 1, c :: rest =>
    if sub.isPrefixOf (c :: rest) then
      1 + pyCountAux sub fuel ((c :: rest).drop (max sub.length 1))
    else
      pyCountAux sub fuel rest

/-- Python `text.count(sub)`: number of non-overlapping occurrences of
`sub` in `text`, scanning left to right (`len(text) + 1` for the empty
pattern, as in Python). -/
def pyCount (text sub : List Char) : Nat :=
  if sub.isEmpty then text.length + 1 else pyCountAux sub text.length text

/-- `sum(text.count(k) for k in keywords)`. -/
def countAny (text : List Char) (keywords : List String) : Nat :=
  (keywords.map (fun k => pyCount text k.toList)).sum

/-- Python `.lower()` restricted to its ASCII action. -/
def lowerChars (s : String) : List Char :=
  s.toList.map Char.toLower

/-- The combined lower-cased analysis text: every post contributes
`title + " " + selftext`, every comment its body, all joined by single
spaces.  (The sub-analyses of the source build this same string, some
lowering before the join and some after; the results coincide.) -/
def combinedText (posts : List Post) (comments : List Comment) : List Char :=
  lowerChars (String.intercalate " "
    (posts.map (fun p => p.title ++ " " ++ p.selftext) ++ comments.map (fun c => c.body)))

/-- Round-to-nearest, ties-to-even, of the rational p / q to an
integer — the rounding used both by IEEE-754 binary64 arithmetic and
by CPython when it divides two ints with `/`. -/
def rne (p q : Nat) : Nat :=
  if 2 * (p % q) < q then p / q
  else if q < 2 * (p % q) then p / q + 1
  else if (p / q) % 2 = 0 then p / q else p / q + 1

/-- Floor base-2 logarithm, fuel-driven so that it evaluates by
kernel reduction; `fuel = n` always suffices because each step at
least halves the argument. -/
def log2fuel : Nat → Nat → Nat
  | 0, _ => 0
  | fuel + 1, n => if 2 ≤ n then log2fuel fuel (n / 2) + 1 else 0

/-- Floor base-2 logarithm of a natural number (0 for 0). -/
def natLog2 (n : Nat) : Nat := log2fuel n n

/-- Floor base-2 logarithm of the positive rational b / t: the unique
z with 2^z ≤ b / t < 2^(z+1), located from the logarithms of b and t
and one exact comparison. -/
def fdivLog2 (b t : Nat) : Int :=
  if 0 ≤ (natLog2 b : Int) - (natLog2 t : Int) then
    if t * 2 ^ ((natLog2 b : Int) - (natLog2 t : Int)).toNat ≤ b then
      (natLog2 b : Int) - (natLog2 t : Int)
    else (natLog2 b : Int) - (natLog2 t : Int) - 1
  else
    if t ≤ b * 2 ^ (-((natLog2 b : Int) - (natLog2 t : Int))).toNat then
      (natLog2 b : Int) - (natLog2 t : Int)
    else (natLog2 b : Int) - (natLog2 t : Int) - 1

/-- The 53-bit significand of the correctly rounded binary64 quotient
b / t: with z = fdivLog2 b t, the integer nearest (ties to even) to
(b / t) · 2^(52-z); the double is this significand times 2^(z-52).
CPython `int.__truediv__` produces exactly this correctly rounded
quotient. -/
def fdivSig (b t : Nat) : Nat :=
  if 52 ≤ fdivLog2 b t then rne b (t * 2 ^ (fdivLog2 b t - 52).toNat)
  else rne (b * 2 ^ (52 - fdivLog2 b t).toNat) t

/-- Round the positive integer w to at most 53 significant bits, ties
to even — the rounding a binary64 multiplication applies to an
integer-valued exact product.  Returns the rounded significand and
the power-of-two shift taken out of it. -/
def round53 (w : Nat) : Nat × Int :=
  if natLog2 w ≤ 52 then (w, 0)
  else (rne w (2 ^ (natLog2 w - 52)), (natLog2 w : Int) - 52)

/-- Floor of w · 2^e for an integer exponent. -/
def mulPow2Floor (w : Nat) (e : Int) : Nat :=
  if 0 ≤ e then w * 2 ^ e.toNat else w / 2 ^ (-e).toNat

/-- The Python expression `int((b / t) * 100)` evaluated in IEEE-754
binary64 arithmetic: the correctly rounded double quotient b / t,
times the exactly representable 100 with the product correctly
rounded, truncated to an integer.  Faithful for every input a run can
reach (no overflow below 2^1024 and no subnormal quotient for any
physically possible text, and the truncated value is nonnegative so
truncation toward zero is floor).  The unreachable t = 0 — guarded by
the total = 0 test in the source — is mapped to 0. -/
def pyIntDivTimes100 (b t : Nat) : Nat :=
  if b = 0 ∨ t = 0 then 0
  else
    mulPow2Floor (round53 (fdivSig b t * 100)).1
      ((round53 (fdivSig b t * 100)).2 + fdivLog2 b t - 52)

/-- Keyword table of `_analyze_introversion_extroversion`, pole B. -/
def extrovert_keywords : List String :=
  ["party", "social", "friends", "meeting people", "networking"]

/-- Keyword table of `_analyze_introversion_extroversion`, pole A. -/
def introvert_keywords : List String :=
  ["alone", "quiet", "home", "reading", "solitude"]

/-- `PersonaAnalyzer._analyze_introversion_extroversion`; the float
expression `int((extrovert_score / total) * 100)` is the binary64
evaluation `pyIntDivTimes100`. -/
def analyze_introversion_extroversion (text : List Char) : Nat :=
  let extrovert_score := countAny text extrovert_keywords
  let introvert_score := countAny text introvert_keywords
  let total := extrovert_score + introvert_score
  if total = 0 then 50 else pyIntDivTimes100 extrovert_score total

/-- Keyword table of `_analyze_intuition_sensing`, pole A. -/
def intuition_keywords : List String :=
  ["future", "possibility", "theory", "concept", "idea"]

/-- Keyword table of `_analyze_intuition_sensing`, pole B. -/
def sensing_keywords : List String :=
  ["practical", "facts", "details", "experience", "reality"]

/-- `PersonaAnalyzer._analyze_intuition_sensing`, with the float
expression `int((sensing_score / total) * 100)` as `pyIntDivTimes100`. -/
def analyze_intuition_sensing (text : List Char) : Nat :=
  let intuition_score := countAny text intuition_keywords
  let sensing_score := countAny text sensing_keywords
  let total := intuition_score + sensing_score
  if total = 0 then 50 else pyIntDivTimes100 sensing_score total

/-- Keyword table of `_analyze_feeling_thinking`, pole A. -/
def feeling_keywords : List String :=
  ["feel", "emotion", "heart", "care", "empathy"]

/-- Keyword table of `_analyze_feeling_thinking`, pole B. -/
def thinking_keywords : List String :=
  ["logic", "rational", "analyze", "objective", "reason"]

/-- `PersonaAnalyzer._analyze_feeling_thinking`, with the float
expression `int((thinking_score / total) * 100)` as `pyIntDivTimes100`. -/
def analyze_feeling_thinking (text : List Char) : Nat :=
  let feeling_score := countAny text feeling_keywords
  let thinking_score := countAny text thinking_keywords
  let total := feeling_score + thinking_score
  if total = 0 then 50 else pyIntDivTimes100 thinking_score total

/-- Keyword table of `_analyze_perceiving_judging`, pole A. -/
def perceiving_keywords : List String :=
  ["flexible", "spontaneous", "adapt", "open", "explore"]

/-- Keyword table of `_analyze_perceiving_judging`, pole B. -/
def judging_keywords : List String :=
  ["plan", "organize", "schedule", "structure", "decide"]

/-- `PersonaAnalyzer._analyze_perceiving_judging`, with the float
expression `int((judging_score / total) * 100)` as `pyIntDivTimes100`. -/
def analyze_perceiving_judging (text : List Char) : Nat :=
  let perceiving_score := countAny text perceiving_keywords
  let judging_score := countAny text judging_keywords
  let total := perceiving_score + judging_score
  if total = 0 then 50 else pyIntDivTimes100 judging_score total

/-- The characteristics block of `analyze_personality_traits`:
four keyword-count thresholds, appended in source order. -/
def analyze_characteristics (text : List Char) : List String :=
  (if countAny text ["help", "advice", "suggest", "recommend", "try this"] > 5
    then ["Helpful"] else []) ++
  (if countAny text ["awesome", "amazing", "love", "excited", "!"] > 10
    then ["Enthusiastic"] else []) ++
  (if countAny text ["analysis", "data", "research", "study", "statistics"] > 3
    then ["Analytical"] else []) ++
  (if countAny text ["creative", "art", "design", "music", "write", "draw"] > 3
    then ["Creative"] else [])

/-- `PersonaAnalyzer.analyze_personality_traits`. -/
def analyze_personality_traits (posts : List Post) (comments : List Comment) : Personality :=
  let text := combinedText posts comments
  { introvert_extrovert := analyze_introversion_extroversion text
    intuition_sensing := analyze_intuition_sensing text
    feeling_thinking := analyze_feeling_thinking text
    perceiving_judging := analyze_perceiving_judging text
    characteristics := analyze_characteristics text }

/-- Ordered age table of `analyze_demographics` (Python dict literals
iterate in insertion order). -/
def age_indicators : List (String × String) :=
  [("college", "20-22"), ("university", "18-25"), ("student", "18-25"),
   ("graduated", "22-30"), ("job", "25-35"), ("career", "25-40"),
   ("retirement", "60+"), ("kids", "28-45"), ("children", "28-45"),
   ("mortgage", "30-50"), ("marriage", "25-40")]

/-- Ordered location table of `analyze_demographics`. -/
def location_indicators : List (String × String) :=
  [("usa", "United States"), ("america", "United States"), ("us", "United States"),
   ("canada", "Canada"), ("uk", "United Kingdom"), ("britain", "United Kingdom"),
   ("australia", "Australia"), ("germany", "Germany"), ("france", "France"),
   ("europe", "Europe")]

/-- Ordered occupation table of `analyze_demographics`. -/
def occupation_keywords : List (String × String) :=
  [("software", "Software Developer"), ("programming", "Software Developer"),
   ("coding", "Software Developer"), ("developer", "Software Developer"),
   ("engineer", "Engineer"), ("teacher", "Teacher"), ("student", "Student"),
   ("doctor", "Healthcare Professional"), ("nurse", "Healthcare Professional"),
   ("manager", "Manager"), ("designer", "Designer"),
   ("marketing", "Marketing Professional"), ("sales", "Sales Professional"),
   ("finance", "Finance Professional"), ("lawyer", "Legal Professional")]

/-- First-match-wins lookup over an ordered keyword table, the loop
pattern `for keyword, value in table.items(): if keyword in text: break`
with default value the literal Unknown. -/
def firstMatch (text : List Char) (table : List (String × String)) : String :=
  match table.find? (fun kv => containsSub kv.1.toList text) with
  | some kv => kv.2
  | none => "Unknown"

/-- The relationship-status cascade of `analyze_demographics`. -/
def analyze_relationship_status (text : List Char) : String :=
  if ["wife", "husband", "married", "spouse"].any (fun w => containsSub w.toList text) then
    "Married"
  else if ["girlfriend", "boyfriend", "dating"].any (fun w => containsSub w.toList text) then
    "In Relationship"
  else if ["single", "dating app"].any (fun w => containsSub w.toList text) then
    "Single"
  else
    "Unknown"

/-- `PersonaAnalyzer.analyze_demographics`. -/
def analyze_demographics (posts : List Post) (comments : List Comment) : Demographics :=
  let text := combinedText posts comments
  { age := firstMatch text age_indicators
    occupation := firstMatch text occupation_keywords
    status := analyze_relationship_status text
    location := firstMatch text location_indicators }

/-- The six motivation categories of `analyze_motivations`, in source
order. -/
def motivation_keywords : List (String × List String) :=
  [("convenience", ["easy", "quick", "fast", "convenient", "simple"]),
   ("wellness", ["health", "fitness", "exercise", "diet", "wellness"]),
   ("speed", ["fast", "quick", "rapid", "immediate", "instant"]),
   ("preferences", ["prefer", "like", "favorite", "choice", "option"]),
   ("comfort", ["comfort", "cozy", "relaxing", "peaceful", "calm"]),
   ("dietary_needs", ["diet", "nutrition", "healthy", "organic", "vegan"])]

/-- `PersonaAnalyzer.analyze_motivations`: per category
`min(score * 10, 100)` where `score` is the total keyword count. -/
def analyze_motivations (posts : List Post) (comments : List Comment) : List (String × Nat) :=
  let text := combinedText posts comments
  motivation_keywords.map (fun cat => (cat.1, min (countAny text cat.2 * 10) 100))

/-- One update of the Python dict
`subreddit_counts[s] = subreddit_counts.get(s, 0) + 1`, on an
insertion-ordered association list: an existing key is bumped in
place, a new key is appended. -/
def bumpCount : List (String × Nat) → String → List (String × Nat)
  | [], s => [(s, 1)]
  | (k, n) :: rest, s =>
    if k = s then (k, n + 1) :: rest else (k, n) :: bumpCount rest s

/-- The `subreddit_counts` dict of `analyze_behavior_and_habits`:
posts first, then comments; records whose subreddit is the empty
string are skipped (Python string truthiness). -/
def subredditCounts (posts : List Post) (comments : List Comment) : List (String × Nat) :=
  let afterPosts :=
    posts.foldl (fun acc p => if p.subreddit = "" then acc else bumpCount acc p.subreddit) []
  comments.foldl (fun acc c => if c.subreddit = "" then acc else bumpCount acc c.subreddit)
    afterPosts

/-- Insertion step of a stable descending sort by count: the new
element goes after every element with a strictly larger count and
before the first element whose count is less than or equal. -/
def insertDesc (x : String × Nat) : List (String × Nat) → List (String × Nat)
  | [] => [x]
  | y :: ys => if x.2 < y.2 then y :: insertDesc x ys else x :: y :: ys

/-- Models `sorted(items, key=lambda x: x[1], reverse=True)`:
CPython timsort is stable also with `reverse=True`, so equal counts
keep their original (insertion) order; `sortDesc` is the stable
insertion sort realizing exactly that ordering. -/
def sortDesc (l : List (String × Nat)) : List (String × Nat) :=
  l.foldr insertDesc []

/-- The top-subreddit behavior strings of `analyze_behavior_and_habits`. -/
def subredditBehaviors (posts : List Post) (comments : List Comment) : List String :=
  ((sortDesc (subredditCounts posts comments)).take 3).map
    (fun kv => "Active in r/" ++ kv.1 ++ " community with " ++ toString kv.2 ++ " posts/comments")

/-- The posting-frequency tier of `analyze_behavior_and_habits`. -/
def postingBehaviors (posts : List Post) : List String :=
  if posts.length > 20 then ["Frequent poster - shares content regularly"]
  else if posts.length > 5 then ["Occasional poster - shares content sometimes"]
  else []

/-- The commenting-frequency tier of `analyze_behavior_and_habits`. -/
def commentingBehaviors (comments : List Comment) : List String :=
  if comments.length > 50 then ["Very active commenter - engages frequently in discussions"]
  else if comments.length > 20 then ["Regular commenter - participates in community discussions"]
  else []

/-- `PersonaAnalyzer.analyze_behavior_and_habits`. -/
def analyze_behavior_and_habits (posts : List Post) (comments : List Comment) : List String :=
  subredditBehaviors posts comments ++ postingBehaviors posts ++ commentingBehaviors comments

/-- Frustration table of `analyze_frustrations`: ordered categories,
each with its keyword list and its fixed output sentence (the inner
loop breaks after the first matching keyword, so a category fires at
most once — any-match semantics). -/
def frustration_patterns : List (List String × String) :=
  [(["slow", "bug", "crash", "error", "broken"],
    "Technology issues and software problems"),
   (["waste time", "too long", "waiting", "delay"],
    "Time-wasting processes and delays"),
   (["confusing", "unclear", "hard to find", "missing info"],
    "Lack of clear information or instructions"),
   (["poor service", "unhelpful", "rude", "disappointing"],
    "Poor customer service experiences")]

/-- Goal table of `analyze_goals_and_needs`, same shape. -/
def goal_keyword_table : List (List String × String) :=
  [(["lose weight", "get fit", "healthy lifestyle", "exercise more"],
    "Maintain a healthy lifestyle and fitness routine"),
   (["promotion", "new job", "career growth", "learn skills"],
    "Advance career and develop professional skills"),
   (["save money", "investment", "financial freedom", "budget"],
    "Achieve financial stability and smart money management"),
   (["learn", "study", "course", "degree", "certification"],
    "Continue learning and skill development"),
   (["meet people", "dating", "friends", "social"],
    "Build meaningful relationships and social connections"),
   (["travel", "hobby", "experience", "adventure"],
    "Explore new experiences and maintain work-life balance")]

/-- Sentences collected before the `list(set(...))` conversion. -/
def matchedSentences (text : List Char) (table : List (List String × String)) : List String :=
  table.filterMap
    (fun cat => if cat.1.any (fun k => containsSub k.toList text) then some cat.2 else none)

/-- A run-specific enumeration of a Python `set` of strings, applied
to the list the set was built from.  CPython orders a string set by
randomized hashes, so this order is a per-process oracle, not a
function of the input. -/
abbrev SetOrder := List String → List String

/-- The oracles that can actually occur: `list(set(xs))` enumerates
exactly the distinct elements of `xs`, in some order. -/
def Admissible (σ : SetOrder) : Prop :=
  ∀ xs : List String, (σ xs).Perm xs.dedup

/-- `PersonaAnalyzer.analyze_frustrations`; `list(set(frustrations))`
is `σ` applied to the matched sentences. -/
def analyze_frustrations (σ : SetOrder) (posts : List Post) (comments : List Comment) :
    List String :=
  σ (matchedSentences (combinedText posts comments) frustration_patterns)

/-- `PersonaAnalyzer.analyze_goals_and_needs`. -/
def analyze_goals_and_needs (σ : SetOrder) (posts : List Post) (comments : List Comment) :
    List String :=
  σ (matchedSentences (combinedText posts comments) goal_keyword_table)

/-- `PersonaAnalyzer.generate_persona`; `datetime.now().isoformat()`
is the injected `now`. -/
def generate_persona (σ : SetOrder) (now : String) (username : String)
    (posts : List Post) (comments : List Comment) : Persona :=
  { username := username
    profile_url := "https://www.reddit.com/user/" ++ username ++ "/"
    analysis_date := now
    total_posts := posts.length
    total_comments := comments.length
    demographics := analyze_demographics posts comments
    personality := analyze_personality_traits posts comments
    motivations := analyze_motivations posts comments
    behaviors := analyze_behavior_and_habits posts comments
    frustrations := analyze_frustrations σ posts comments
    goals := analyze_goals_and_needs σ posts comments
    raw_posts := posts.take 5
    raw_comments := comments.take 10 }

/-- One personality gauge of `generate_text_report`: the two f-string
pieces `filled * (10 - score // 10)` and `track * (score // 10)`.
(For scores above 100 Python would repeat the filled glyph a negative
number of times, which also yields the empty string, so truncated
subtraction is faithful for every natural score.) -/
def gaugeBar (score : Nat) : String :=
  String.mk (List.replicate (10 - score / 10) '█') ++
    String.mk (List.replicate (score / 10) '░')

/-- The four gauge lines of the PERSONALITY TRAITS section, with the
exact label spellings and padding of the source f-strings. -/
def personalityGaugeLines (pers : Personality) : List String :=
  ["INTROVERT " ++ gaugeBar pers.introvert_extrovert ++ " EXTROVERT",
   "INTUITION " ++ gaugeBar pers.intuition_sensing ++ " SENSING",
   "FEELING   " ++ gaugeBar pers.feeling_thinking ++ " THINKING",
   "PERCEIVING" ++ gaugeBar pers.perceiving_judging ++ " JUDGING"]

/-- The post loop of the quote section: Python sets
`quote`/`citation` and breaks at the first post whose selftext is
truthy (nonempty) and longer than 50 characters; `("", "")` is the
not-found sentinel, matching the initial `quote = ""` of the source. -/
def postQuote : List Post → String × String
  | [] => ("", "")
  | p :: rest =>
    if 0 < p.selftext.length ∧ 50 < p.selftext.length then
      (p.selftext.take 150 ++ "...",
       "Post: " ++ p.title ++ " (ID: " ++ p.id ++ ")")
    else postQuote rest

/-- The comment fallback loop of the quote section. -/
def commentQuote : List Comment → String × String
  | [] => ("", "")
  | c :: rest =>
    if 0 < c.body.length ∧ 30 < c.body.length then
      (c.body.take 150 ++ "...", "Comment ID: " ++ c.id)
    else commentQuote rest

/-- The lines the REPRESENTATIVE QUOTE block of
`generate_text_report` appends: nothing unless
`raw_posts or raw_comments` is truthy; otherwise the header and rule,
and the quote and source lines only when `quote` ended up nonempty. -/
def quoteSection (p : Persona) : List String :=
  if p.raw_posts = [] ∧ p.raw_comments = [] then []
  else
    let pq := postQuote p.raw_posts
    let qc := if pq.1 = "" then commentQuote p.raw_comments else pq
    ["REPRESENTATIVE QUOTE", String.mk (List.replicate 40 '-')] ++
      (if qc.1 = "" then [] else ["\"" ++ qc.1 ++ "\"", "Source: " ++ qc.2])

/-- A post that only carries a subreddit, for concrete test inputs. -/
def mkPost (sub : String) : Post :=
  { id := "", title := "", selftext := "", subreddit := sub, score := 0,
    created_utc := 0, url := "", num_comments := 0 }

/-- A comment that only carries a body, for concrete test inputs. -/
def mkComment (body : String) : Comment :=
  { id := "c1", body := body, subreddit := "", score := 0,
    created_utc := 0, url := "", link_title := "" }

/-- Specification of the fuel-driven logarithm: with enough fuel it
brackets its argument between consecutive powers of two. -/
theorem log2fuel_spec : ∀ (fuel n : Nat), n ≤ fuel → 1 ≤ n →
    2 ^ log2fuel fuel n ≤ n ∧ n < 2 ^ (log2fuel fuel n + 1)
  | 0, _, hf, h1 => by omega
  | fuel + 1, n, hf, h1 => by
    simp only [log2fuel]
    by_cases h2 : 2 ≤ n
    · rw [if_pos h2]
      have hd2 : n / 2 ≤ fuel := by omega
      have hd1 : 1 ≤ n / 2 := by omega
      obtain ⟨ha, hb⟩ := log2fuel_spec fuel (n / 2) hd2 hd1
      constructor
      · rw [pow_succ]
        have hmul : 2 ^ log2fuel fuel (n / 2) * 2 ≤ n / 2 * 2 :=
          Nat.mul_le_mul_right 2 ha
        have hdm : n / 2 * 2 ≤ n := Nat.div_mul_le_self n 2
        omega
      · rw [pow_succ]
        omega
    · rw [if_neg h2]
      simp only [pow_zero, pow_one]
      omega

/-- Lower bracket of `natLog2`. -/
theorem pow_natLog2_le {n : Nat} (h : 1 ≤ n) : 2 ^ natLog2 n ≤ n :=
  (log2fuel_spec n n le_rfl h).1

/-- Upper bracket of `natLog2`. -/
theorem lt_pow_natLog2 {n : Nat} (h : 1 ≤ n) : n < 2 ^ (natLog2 n + 1) :=
  (log2fuel_spec n n le_rfl h).2

/-- `natLog2` is monotone on positive arguments. -/
theorem natLog2_mono {b t : Nat} (hb : 1 ≤ b) (hbt : b ≤ t) :
    natLog2 b ≤ natLog2 t := by
  have h1 := pow_natLog2_le hb
  have h2 := lt_pow_natLog2 (le_trans hb hbt)
  have h3 : 2 ^ natLog2 b < 2 ^ (natLog2 t + 1) := by omega
  have h4 := (Nat.pow_lt_pow_iff_right (by norm_num : 1 < 2)).mp h3
  omega

/-- Round-to-nearest-even never exceeds an integer bound that the
exact quotient respects: rounding can reach the bound but not cross
it, because a crossing would need a positive remainder on an exact
multiple. -/
theorem rne_le {p q N : Nat} (hq : 1 ≤ q) (h : p ≤ q * N) : rne p q ≤ N := by
  have hdm := Nat.div_add_mod p q
  have hdiv : p / q ≤ N := by
    by_contra hc
    push_neg at hc
    have h1 : q * (N + 1) ≤ q * (p / q) := Nat.mul_le_mul_left q hc
    have h2 : q * (N + 1) = q * N + q := by ring
    omega
  unfold rne
  split
  · exact hdiv
  · split
    · by_contra hc
      push_neg at hc
      have he : p / q = N := by omega
      rw [he] at hdm
      omega
    · split
      · exact hdiv
      · by_contra hc
        push_neg at hc
        have he : p / q = N := by omega
        rw [he] at hdm
        omega

/-- For a quotient of at most one, the located exponent is at most
zero. -/
theorem fdivLog2_nonpos {b t : Nat} (hb : 1 ≤ b) (hbt : b ≤ t) :
    fdivLog2 b t ≤ 0 := by
  have hm := natLog2_mono hb hbt
  unfold fdivLog2
  split
  · split <;> omega
  · split <;> omega

/-- Flooring the 53-bit rounding of w · 2^(z-52) stays below 100
whenever w itself is below 100 · 2^(52-z), for nonpositive z: the
second rounding respects the bound 100 · 2^(52+d) (a representable
multiple of a power of two), and the final floor divides it out. -/
theorem round53_floor_le {w : Nat} {z : Int} {d : Nat} (hz : z ≤ 0)
    (hd : d = (-z).toNat) (hw : w ≤ 100 * 2 ^ (52 + d)) :
    mulPow2Floor (round53 w).1 ((round53 w).2 + z - 52) ≤ 100 := by
  unfold round53
  by_cases hk : natLog2 w ≤ 52
  · rw [if_pos hk]
    show mulPow2Floor w (0 + z - 52) ≤ 100
    unfold mulPow2Floor
    rw [if_neg (by omega : ¬ (0:Int) ≤ 0 + z - 52)]
    have hneg : (-(0 + z - 52)).toNat = 52 + d := by omega
    rw [hneg]
    calc w / 2 ^ (52 + d) ≤ 100 * 2 ^ (52 + d) / 2 ^ (52 + d) :=
          Nat.div_le_div_right hw
      _ = 100 := Nat.mul_div_cancel _ (Nat.pow_pos (by norm_num))

  · rw [if_neg hk]
    push_neg at hk
    show mulPow2Floor (rne w (2 ^ (natLog2 w - 52)))
      (((natLog2 w : Int) - 52) + z - 52) ≤ 100
    have hw1 : 1 ≤ w := by
      by_contra hc
      push_neg at hc
      have hw0 : w = 0 := by omega
      have h0 : natLog2 0 = 0 := rfl
      rw [hw0] at hk
      omega
    have hk_le : natLog2 w ≤ 58 + d := by
      have h2k := pow_natLog2_le hw1
      have h128 : (128 : Nat) * 2 ^ (52 + d) = 2 ^ (59 + d) := by
        rw [show (128 : Nat) = 2 ^ 7 from rfl, ← pow_add]
        congr 1
        omega
      have hwlt : w < 2 ^ (59 + d) := by omega
      have hlt : 2 ^ natLog2 w < 2 ^ (59 + d) := by omega
      have := (Nat.pow_lt_pow_iff_right (by norm_num : 1 < 2)).mp hlt
      omega
    have hpow : 2 ^ (natLog2 w - 52) * (100 * 2 ^ (104 + d - natLog2 w)) =
        100 * 2 ^ (52 + d) := by
      rw [← Nat.mul_assoc, Nat.mul_comm (2 ^ (natLog2 w - 52)) 100,
        Nat.mul_assoc, ← pow_add]
      congr 2
      omega
    have hm2 : rne w (2 ^ (natLog2 w - 52)) ≤ 100 * 2 ^ (104 + d - natLog2 w) := by
      apply rne_le (Nat.pow_pos (by norm_num))
      rw [hpow]
      exact hw
    unfold mulPow2Floor
    rw [if_neg (by omega : ¬ (0:Int) ≤ ((natLog2 w : Int) - 52) + z - 52)]
    have hexp : (-(((natLog2 w : Int) - 52) + z - 52)).toNat = 104 + d - natLog2 w := by
      omega
    rw [hexp]
    calc rne w (2 ^ (natLog2 w - 52)) / 2 ^ (104 + d - natLog2 w)
        ≤ 100 * 2 ^ (104 + d - natLog2 w) / 2 ^ (104 + d - natLog2 w) :=
          Nat.div_le_div_right hm2
      _ = 100 := Nat.mul_div_cancel _ (Nat.pow_pos (by norm_num))

/-- The binary64 evaluation of `int((b / t) * 100)` never exceeds 100
when the numerator is at most the denominator: the rounded quotient
is at most one, the rounded product at most 100. -/
theorem pyIntDivTimes100_le_100 {b t : Nat} (hbt : b ≤ t) :
    pyIntDivTimes100 b t ≤ 100 := by
  unfold pyIntDivTimes100
  split
  · omega
  · rename_i hbt0
    push_neg at hbt0
    obtain ⟨hb, ht⟩ := hbt0
    have hb1 : 1 ≤ b := by omega
    have ht1 : 1 ≤ t := by omega
    have hz : fdivLog2 b t ≤ 0 := fdivLog2_nonpos hb1 hbt
    have hzd : (52 - fdivLog2 b t).toNat = 52 + (-(fdivLog2 b t)).toNat := by omega
    have hm1 : fdivSig b t ≤ 2 ^ (52 + (-(fdivLog2 b t)).toNat) := by
      unfold fdivSig
      rw [if_neg (by omega : ¬ (52:Int) ≤ fdivLog2 b t), hzd]
      exact rne_le ht1 (Nat.mul_le_mul_right _ hbt)
    have hw : fdivSig b t * 100 ≤ 100 * 2 ^ (52 + (-(fdivLog2 b t)).toNat) := by
      calc fdivSig b t * 100 ≤ 2 ^ (52 + (-(fdivLog2 b t)).toNat) * 100 :=
            Nat.mul_le_mul_right 100 hm1
        _ = 100 * 2 ^ (52 + (-(fdivLog2 b t)).toNat) := Nat.mul_comm _ _
    exact round53_floor_le hz rfl hw

/-- An axis score of the source shape is at most 100 when the pole
count is at most the total. -/
theorem axis_score_le_100 {x y : Nat} (h : x ≤ y) :
    (if y = 0 then 50 else pyIntDivTimes100 x y) ≤ 100 := by
  split
  · omega
  · exact pyIntDivTimes100_le_100 h

/-- A text containing the extrovert keyword `party` 29 times and the
introvert keyword `alone` 21 times. -/
def c3Text : List Char :=
  (String.intercalate " "
    (List.replicate 29 "party" ++ List.replicate 21 "alone")).toList

set_option maxRecDepth 40000 in
/-- C3 counterexample: at pole counts 29 of total 50 the program —
which evaluates int((29/50)*100) in binary64, where 29/50 rounds just
below 0.58 and the product to 57.99999999999999289 — scores 57, while
the claimed exact truncated scaling gives 58. -/
theorem C3_counterexample :
    countAny c3Text extrovert_keywords = 29 ∧
    countAny c3Text introvert_keywords = 21 ∧
    analyze_introversion_extroversion c3Text = 57 ∧
    countAny c3Text extrovert_keywords * 100 /
      (countAny c3Text extrovert_keywords + countAny c3Text introvert_keywords) = 58 := by
  decide

/-- C3 amended: for every combined input text, each personality axis
score is the binary64 evaluation of int((pole-B total / total) * 100)
— the correctly rounded double quotient, times 100 with the product
correctly rounded, truncated toward zero — which equals the exact
truncated scaling except where the float product falls just below an
integer; it equals exactly 50 when the total occurrence count is
zero, and a text with `party` three times and `alone` once still
scores 75 on the extrovert axis. -/
theorem C3_axis_score_formula (text : List Char) :
    (analyze_introversion_extroversion text =
      if countAny text extrovert_keywords + countAny text introvert_keywords = 0 then 50
      else pyIntDivTimes100 (countAny text extrovert_keywords)
        (countAny text extrovert_keywords + countAny text introvert_keywords)) ∧
    (analyze_intuition_sensing text =
      if countAny text intuition_keywords + countAny text sensing_keywords = 0 then 50
      else pyIntDivTimes100 (countAny text sensing_keywords)
        (countAny text intuition_keywords + countAny text sensing_keywords)) ∧
    (analyze_feeling_thinking text =
      if countAny text feeling_keywords + countAny text thinking_keywords = 0 then 50
      else pyIntDivTimes100 (countAny text thinking_keywords)
        (countAny text feeling_keywords + countAny text thinking_keywords)) ∧
    (analyze_perceiving_judging text =
      if countAny text perceiving_keywords + countAny text judging_keywords = 0 then 50
      else pyIntDivTimes100 (countAny text judging_keywords)
        (countAny text perceiving_keywords + countAny text judging_keywords)) ∧
    analyze_introversion_extroversion ("party party party alone").toList = 75 :=
  ⟨rfl, rfl, rfl, rfl, by decide⟩

/-- Comment whose body hits the convenience keywords 3 times. -/
def c6ThreeComment : Comment := mkComment "easy quick simple"

/-- Comment whose body hits the convenience keywords 15 times. -/
def c6FifteenComment : Comment := mkComment
  "easy easy easy easy easy easy easy easy easy easy easy easy easy easy easy"

/-- C6: each of the six motivation scores is
`min(10 * keyword occurrences, 100)`; 3 occurrences score 30 and 15
occurrences are clamped to 100. -/
theorem C6_motivation_scores (posts : List Post) (comments : List Comment) :
    (analyze_motivations posts comments =
      [("convenience",
        min (countAny (combinedText posts comments)
          ["easy", "quick", "fast", "convenient", "simple"] * 10) 100),
       ("wellness",
        min (countAny (combinedText posts comments)
          ["health", "fitness", "exercise", "diet", "wellness"] * 10) 100),
       ("speed",
        min (countAny (combinedText posts comments)
          ["fast", "quick", "rapid", "immediate", "instant"] * 10) 100),
       ("preferences",
        min (countAny (combinedText posts comments)
          ["prefer", "like", "favorite", "choice", "option"] * 10) 100),
       ("comfort",
        min (countAny (combinedText posts comments)
          ["comfort", "cozy", "relaxing", "peaceful", "calm"] * 10) 100),
       ("dietary_needs",
        min (countAny (combinedText posts comments)
          ["diet", "nutrition", "healthy", "organic", "vegan"] * 10) 100)]) ∧
    List.lookup "convenience" (analyze_motivations [] [c6ThreeComment]) = some 30 ∧
    List.lookup "convenience" (analyze_motivations [] [c6FifteenComment]) = some 100 :=
  ⟨rfl, by decide, by decide⟩

/-- C8: every personality axis score and every motivation score lies
in the closed interval from 0 to 100, for all inputs. -/
theorem C8_scores_within_bounds (posts : List Post) (comments : List Comment) :
    (0 ≤ (analyze_personality_traits posts comments).introvert_extrovert ∧
      (analyze_personality_traits posts comments).introvert_extrovert ≤ 100) ∧
    (0 ≤ (analyze_personality_traits posts comments).intuition_sensing ∧
      (analyze_personality_traits posts comments).intuition_sensing ≤ 100) ∧
    (0 ≤ (analyze_personality_traits posts comments).feeling_thinking ∧
      (analyze_personality_traits posts comments).feeling_thinking ≤ 100) ∧
    (0 ≤ (analyze_personality_traits posts comments).perceiving_judging ∧
      (analyze_personality_traits posts comments).perceiving_judging ≤ 100) ∧
    (∀ kv ∈ analyze_motivations posts comments, 0 ≤ kv.2 ∧ kv.2 ≤ 100) := by
  refine ⟨⟨Nat.zero_le _, ?_⟩, ⟨Nat.zero_le _, ?_⟩, ⟨Nat.zero_le _, ?_⟩, ⟨Nat.zero_le _, ?_⟩, ?_⟩
  · exact axis_score_le_100 (Nat.le_add_right _ _)
  · exact axis_score_le_100 (Nat.le_add_left _ _)
  · exact axis_score_le_100 (Nat.le_add_left _ _)
  · exact axis_score_le_100 (Nat.le_add_left _ _)
  · intro kv hkv
    obtain ⟨cat, _, rfl⟩ := List.mem_map.mp hkv
    exact ⟨Nat.zero_le _, min_le_right _ _⟩

/-- Closed instance discharging the membership hypothesis of the C8
theorem at a concrete input. -/
theorem C8_scores_within_bounds_witness :
    ("convenience", 0) ∈ analyze_motivations [] [] ∧
      0 ≤ (("convenience", 0) : String × Nat).2 ∧ (("convenience", 0) : String × Nat).2 ≤ 100 :=
  ⟨by decide, (C8_scores_within_bounds [] []).2.2.2.2 ("convenience", 0) (by decide)⟩

/-- C9: the behaviors list has at most 3 subreddit strings, at most
one posting-frequency string, at most one commenting-frequency
string, and at most 5 entries in total. -/
theorem C9_behaviors_bounded (posts : List Post) (comments : List Comment) :
    (subredditBehaviors posts comments).length ≤ 3 ∧
    (postingBehaviors posts).length ≤ 1 ∧
    (commentingBehaviors comments).length ≤ 1 ∧
    (analyze_behavior_and_habits posts comments).length ≤ 5 := by
  have h1 : (subredditBehaviors posts comments).length ≤ 3 := by
    simp only [subredditBehaviors, List.length_map, List.length_take]
    exact min_le_left _ _
  have h2 : (postingBehaviors posts).length ≤ 1 := by
    simp only [postingBehaviors]
    split
    · simp
    · split <;> simp
  have h3 : (commentingBehaviors comments).length ≤ 1 := by
    simp only [commentingBehaviors]
    split
    · simp
    · split <;> simp
  refine ⟨h1, h2, h3, ?_⟩
  simp only [analyze_behavior_and_habits, List.length_append]
  omega

/-- Membership through one insertion step of the stable sort. -/
theorem mem_insertDesc {a x : String × Nat} {l : List (String × Nat)} :
    a ∈ insertDesc x l ↔ a = x ∨ a ∈ l := by
  induction l with
  | nil => simp [insertDesc]
  | cons y ys ih =>
    simp only [insertDesc]
    split
    · simp only [List.mem_cons, ih]
      tauto
    · simp only [List.mem_cons]

/-- Each insertion step preserves the descending-by-count ordering. -/
theorem pairwise_insertDesc {x : String × Nat} {l : List (String × Nat)}
    (h : List.Pairwise (fun a b => b.2 ≤ a.2) l) :
    List.Pairwise (fun a b => b.2 ≤ a.2) (insertDesc x l) := by
  induction l with
  | nil => simp [insertDesc]
  | cons y ys ih =>
    rw [List.pairwise_cons] at h
    obtain ⟨hy, hys⟩ := h
    simp only [insertDesc]
    split
    · rename_i hlt
      rw [List.pairwise_cons]
      refine ⟨?_, ih hys⟩
      intro b hb
      rcases mem_insertDesc.mp hb with hb | hb
      · subst hb
        omega
      · exact hy b hb
    · rename_i hge
      rw [List.pairwise_cons]
      refine ⟨?_, List.pairwise_cons.mpr ⟨hy, hys⟩⟩
      intro b hb
      rcases List.mem_cons.mp hb with hb | hb
      · subst hb
        omega
      · have := hy b hb
        omega

/-- Stability of one insertion step, phrased through filtering by an
exact count: the inserted element lands in front of the equal-count
elements already present, because it is only moved past strictly
larger counts. -/
theorem filter_insertDesc (x : String × Nat) (l : List (String × Nat)) (n : Nat) :
    (insertDesc x l).filter (fun p => p.2 == n) =
      (if x.2 == n then [x] else []) ++ l.filter (fun p => p.2 == n) := by
  induction l with
  | nil => simp [insertDesc, List.filter_cons]
  | cons y ys ih =>
    simp only [insertDesc]
    split
    · rename_i hlt
      rw [List.filter_cons, List.filter_cons]
      by_cases hx : x.2 = n
      · have hy : (y.2 == n) = false := by
          simp only [beq_eq_false_iff_ne]
          omega
        simp [hx, hy, ih]
      · have hx2 : (x.2 == n) = false := by simp [hx]
        simp only [hx2, ih]
        split <;> simp [hx2]
    · rw [List.filter_cons, List.filter_cons]
      split <;> simp [List.filter_cons]

/-- `sortDesc` orders counts descending. -/
theorem sortDesc_pairwise (l : List (String × Nat)) :
    List.Pairwise (fun a b => b.2 ≤ a.2) (sortDesc l) := by
  induction l with
  | nil => simp [sortDesc]
  | cons a t ih => exact pairwise_insertDesc ih

/-- Stability of `sortDesc`: restricted to any fixed count, the
sorted list lists exactly the original elements in their original
(first-encounter) order. -/
theorem sortDesc_filter (l : List (String × Nat)) (n : Nat) :
    (sortDesc l).filter (fun p => p.2 == n) = l.filter (fun p => p.2 == n) := by
  induction l with
  | nil => rfl
  | cons a t ih =>
    show (insertDesc a (sortDesc t)).filter _ = _
    rw [filter_insertDesc, ih, List.filter_cons]
    split <;> simp_all

/-- Concrete input for the C5 example: interleaved posts giving the
counts python 5, golang 5, rust 2, with python encountered first. -/
def c5Posts : List Post :=
  [mkPost "python", mkPost "golang", mkPost "rust", mkPost "python",
   mkPost "golang", mkPost "python", mkPost "golang", mkPost "python",
   mkPost "golang", mkPost "python", mkPost "golang", mkPost "rust"]

/-- C5: the behavior analysis takes the top 3 subreddits by combined
count, descending, ties broken first-seen-first; on counts
python 5 / golang 5 / rust 2 all three are emitted with python before
golang.  The general conjuncts state that the sort underlying the
selection is descending by count and stable. -/
theorem C5_top_subreddits :
    (analyze_behavior_and_habits c5Posts [] =
      ["Active in r/python community with 5 posts/comments",
       "Active in r/golang community with 5 posts/comments",
       "Active in r/rust community with 2 posts/comments",
       "Occasional poster - shares content sometimes"]) ∧
    (∀ l : List (String × Nat), List.Pairwise (fun a b => b.2 ≤ a.2) (sortDesc l)) ∧
    (∀ (l : List (String × Nat)) (n : Nat),
        (sortDesc l).filter (fun p => p.2 == n) = l.filter (fun p => p.2 == n)) :=
  ⟨by decide, sortDesc_pairwise, sortDesc_filter⟩

/-- `bumpCount` never introduces a key that was not either already
present or the bumped one. -/
theorem bumpCount_keys {l : List (String × Nat)} {s : String}
    (h : ∀ kv ∈ l, kv.1 ≠ "") (hs : s ≠ "") :
    ∀ kv ∈ bumpCount l s, kv.1 ≠ "" := by
  induction l with
  | nil =>
    intro kv hkv
    simp only [bumpCount, List.mem_singleton] at hkv
    subst hkv
    exact hs
  | cons y ys ih =>
    intro kv hkv
    simp only [bumpCount] at hkv
    split at hkv
    · rcases List.mem_cons.mp hkv with hkv | hkv
      · subst hkv
        exact h y (List.mem_cons_self y ys)
      · exact h kv (List.mem_cons_of_mem y hkv)
    · rcases List.mem_cons.mp hkv with hkv | hkv
      · subst hkv
        exact h y (List.mem_cons_self y ys)
      · exact ih (fun a ha => h a (List.mem_cons_of_mem y ha)) kv hkv

/-- The skip-empty counting fold keeps every key nonempty. -/
theorem foldl_bump_keys {α : Type} (f : α → String) (xs : List α)
    (acc : List (String × Nat)) (h : ∀ kv ∈ acc, kv.1 ≠ "") :
    ∀ kv ∈ xs.foldl (fun a x => if f x = "" then a else bumpCount a (f x)) acc, kv.1 ≠ "" := by
  induction xs generalizing acc with
  | nil => exact h
  | cons x xs ih =>
    rw [List.foldl_cons]
    split
    · exact ih acc h
    · exact ih _ (bumpCount_keys h (by assumption))

/-- Every key of the subreddit frequency map is a nonempty name. -/
theorem subredditCounts_keys (posts : List Post) (comments : List Comment) :
    ∀ kv ∈ subredditCounts posts comments, kv.1 ≠ "" := by
  exact foldl_bump_keys Comment.subreddit comments _
    (foldl_bump_keys Post.subreddit posts [] (by simp))

/-- Membership is preserved backwards through the stable sort. -/
theorem mem_of_mem_sortDesc {a : String × Nat} {l : List (String × Nat)}
    (h : a ∈ sortDesc l) : a ∈ l := by
  induction l with
  | nil => exact absurd h (by simp [sortDesc])
  | cons y ys ih =>
    have h2 : a ∈ insertDesc y (sortDesc ys) := h
    rcases mem_insertDesc.mp h2 with h2 | h2
    · rw [h2]
      exact List.mem_cons_self y ys
    · exact List.mem_cons_of_mem y (ih h2)

/-- C10: records with an empty subreddit never reach the frequency
map, so no behavior string is ever emitted for an empty subreddit
name — every emitted activity string names a nonempty subreddit. -/
theorem C10_no_empty_subreddit (posts : List Post) (comments : List Comment) :
    (∀ kv ∈ subredditCounts posts comments, kv.1 ≠ "") ∧
    (∀ b ∈ subredditBehaviors posts comments,
        ∃ (sub : String) (cnt : Nat), sub ≠ "" ∧
          b = "Active in r/" ++ sub ++ " community with " ++ toString cnt ++ " posts/comments") := by
  refine ⟨subredditCounts_keys posts comments, ?_⟩
  intro b hb
  simp only [subredditBehaviors] at hb
  obtain ⟨kv, hkv, rfl⟩ := List.mem_map.mp hb
  have hmem : kv ∈ subredditCounts posts comments :=
    mem_of_mem_sortDesc (List.take_subset 3 _ hkv)
  exact ⟨kv.1, kv.2, subredditCounts_keys posts comments kv hmem, rfl⟩

/-- Closed instance discharging the membership hypotheses of the C10
theorem at a concrete input. -/
theorem C10_no_empty_subreddit_witness :
    ("python", 1) ∈ subredditCounts [mkPost "python"] [] ∧
      (("python", 1) : String × Nat).1 ≠ "" :=
  ⟨by decide, (C10_no_empty_subreddit [mkPost "python"] []).1 ("python", 1) (by decide)⟩

/-- The set-order oracle of a run that happens to enumerate in
first-occurrence order. -/
def sigmaDedup : SetOrder := fun xs => xs.dedup

/-- The set-order oracle of a run that happens to enumerate in
reverse first-occurrence order. -/
def sigmaRevDedup : SetOrder := fun xs => xs.dedup.reverse

/-- `sigmaDedup` is a possible enumeration of every string set. -/
theorem admissible_sigmaDedup : Admissible sigmaDedup :=
  fun _ => List.Perm.refl _

/-- `sigmaRevDedup` is a possible enumeration of every string set. -/
theorem admissible_sigmaRevDedup : Admissible sigmaRevDedup :=
  fun _ => List.reverse_perm _

/-- C4: on empty posts and comments the analyzer yields the neutral
persona: demographics all Unknown, all four axis scores exactly 50,
empty characteristics, behaviors, frustrations and goals. -/
theorem C4_empty_inputs_neutral (σ : SetOrder) (hσ : Admissible σ) (now username : String) :
    ((generate_persona σ now username [] []).demographics.age = "Unknown" ∧
      (generate_persona σ now username [] []).demographics.occupation = "Unknown" ∧
      (generate_persona σ now username [] []).demographics.status = "Unknown" ∧
      (generate_persona σ now username [] []).demographics.location = "Unknown") ∧
    ((generate_persona σ now username [] []).personality.introvert_extrovert = 50 ∧
      (generate_persona σ now username [] []).personality.intuition_sensing = 50 ∧
      (generate_persona σ now username [] []).personality.feeling_thinking = 50 ∧
      (generate_persona σ now username [] []).personality.perceiving_judging = 50) ∧
    (generate_persona σ now username [] []).personality.characteristics = [] ∧
    (generate_persona σ now username [] []).behaviors = [] ∧
    (generate_persona σ now username [] []).frustrations = [] ∧
    (generate_persona σ now username [] []).goals = [] := by
  refine ⟨⟨rfl, rfl, rfl, rfl⟩, ⟨rfl, rfl, rfl, rfl⟩, rfl, rfl, ?_, ?_⟩
  · show σ (matchedSentences (combinedText [] []) frustration_patterns) = []
    have h : matchedSentences (combinedText [] []) frustration_patterns = [] := by decide
    rw [h]
    exact (hσ []).eq_nil
  · show σ (matchedSentences (combinedText [] []) goal_keyword_table) = []
    have h : matchedSentences (combinedText [] []) goal_keyword_table = [] := by decide
    rw [h]
    exact (hσ []).eq_nil

/-- Closed instance of the C4 theorem at a concrete admissible run. -/
theorem C4_empty_inputs_neutral_witness :
    ((generate_persona sigmaDedup "2025-01-01" "alice" [] []).demographics.age = "Unknown" ∧
      (generate_persona sigmaDedup "2025-01-01" "alice" [] []).demographics.occupation = "Unknown" ∧
      (generate_persona sigmaDedup "2025-01-01" "alice" [] []).demographics.status = "Unknown" ∧
      (generate_persona sigmaDedup "2025-01-01" "alice" [] []).demographics.location = "Unknown") ∧
    ((generate_persona sigmaDedup "2025-01-01" "alice" [] []).personality.introvert_extrovert = 50 ∧
      (generate_persona sigmaDedup "2025-01-01" "alice" [] []).personality.intuition_sensing = 50 ∧
      (generate_persona sigmaDedup "2025-01-01" "alice" [] []).personality.feeling_thinking = 50 ∧
      (generate_persona sigmaDedup "2025-01-01" "alice" [] []).personality.perceiving_judging = 50) ∧
    (generate_persona sigmaDedup "2025-01-01" "alice" [] []).personality.characteristics = [] ∧
    (generate_persona sigmaDedup "2025-01-01" "alice" [] []).behaviors = [] ∧
    (generate_persona sigmaDedup "2025-01-01" "alice" [] []).frustrations = [] ∧
    (generate_persona sigmaDedup "2025-01-01" "alice" [] []).goals = [] :=
  C4_empty_inputs_neutral sigmaDedup (fun _ => List.Perm.refl _) "2025-01-01" "alice"

/-- A comment triggering two distinct frustration sentences
(technology via `slow`, time via `waiting`). -/
def c2Comment : Comment := mkComment "slow waiting"

/-- C2 counterexample: two admissible runs on identical inputs — and
even with identical recorded timestamps — produce persona records
that differ, because the element order of the frustrations list
depends on the enumeration order of a Python string set, which varies
between interpreter processes. -/
theorem C2_counterexample :
    Admissible sigmaDedup ∧ Admissible sigmaRevDedup ∧
    generate_persona sigmaDedup "2025-01-01T00:00:00" "bob" [] [c2Comment] ≠
      generate_persona sigmaRevDedup "2025-01-01T00:00:00" "bob" [] [c2Comment] := by
  refine ⟨admissible_sigmaDedup, admissible_sigmaRevDedup, fun h => ?_⟩
  exact absurd (congrArg Persona.frustrations h) (by decide)

/-- C2 amended: across any two admissible runs on identical inputs,
every field of the persona record other than the analysis timestamp
and other than the ORDER of the frustrations and goals lists is
identical; the frustrations lists (and the goals lists) always hold
the same elements, as permutations of each other. -/
theorem C2_determinism_amended (σ₁ σ₂ : SetOrder)
    (h₁ : Admissible σ₁) (h₂ : Admissible σ₂) (now₁ now₂ username : String)
    (posts : List Post) (comments : List Comment) :
    (generate_persona σ₁ now₁ username posts comments).username =
      (generate_persona σ₂ now₂ username posts comments).username ∧
    (generate_persona σ₁ now₁ username posts comments).profile_url =
      (generate_persona σ₂ now₂ username posts comments).profile_url ∧
    (generate_persona σ₁ now₁ username posts comments).total_posts =
      (generate_persona σ₂ now₂ username posts comments).total_posts ∧
    (generate_persona σ₁ now₁ username posts comments).total_comments =
      (generate_persona σ₂ now₂ username posts comments).total_comments ∧
    (generate_persona σ₁ now₁ username posts comments).demographics =
      (generate_persona σ₂ now₂ username posts comments).demographics ∧
    (generate_persona σ₁ now₁ username posts comments).personality =
      (generate_persona σ₂ now₂ username posts comments).personality ∧
    (generate_persona σ₁ now₁ username posts comments).motivations =
      (generate_persona σ₂ now₂ username posts comments).motivations ∧
    (generate_persona σ₁ now₁ username posts comments).behaviors =
      (generate_persona σ₂ now₂ username posts comments).behaviors ∧
    (generate_persona σ₁ now₁ username posts comments).raw_posts =
      (generate_persona σ₂ now₂ username posts comments).raw_posts ∧
    (generate_persona σ₁ now₁ username posts comments).raw_comments =
      (generate_persona σ₂ now₂ username posts comments).raw_comments ∧
    (generate_persona σ₁ now₁ username posts comments).frustrations.Perm
      (generate_persona σ₂ now₂ username posts comments).frustrations ∧
    (generate_persona σ₁ now₁ username posts comments).goals.Perm
      (generate_persona σ₂ now₂ username posts comments).goals :=
  ⟨rfl, rfl, rfl, rfl, rfl, rfl, rfl, rfl, rfl, rfl,
   (h₁ _).trans (h₂ _).symm, (h₁ _).trans (h₂ _).symm⟩

/-- Closed instance of the amended C2 theorem at two concrete
admissible runs. -/
theorem C2_determinism_amended_witness :
    (generate_persona sigmaDedup "t1" "bob" [] [c2Comment]).username =
      (generate_persona sigmaRevDedup "t2" "bob" [] [c2Comment]).username ∧
    (generate_persona sigmaDedup "t1" "bob" [] [c2Comment]).profile_url =
      (generate_persona sigmaRevDedup "t2" "bob" [] [c2Comment]).profile_url ∧
    (generate_persona sigmaDedup "t1" "bob" [] [c2Comment]).total_posts =
      (generate_persona sigmaRevDedup "t2" "bob" [] [c2Comment]).total_posts ∧
    (generate_persona sigmaDedup "t1" "bob" [] [c2Comment]).total_comments =
      (generate_persona sigmaRevDedup "t2" "bob" [] [c2Comment]).total_comments ∧
    (generate_persona sigmaDedup "t1" "bob" [] [c2Comment]).demographics =
      (generate_persona sigmaRevDedup "t2" "bob" [] [c2Comment]).demographics ∧
    (generate_persona sigmaDedup "t1" "bob" [] [c2Comment]).personality =
      (generate_persona sigmaRevDedup "t2" "bob" [] [c2Comment]).personality ∧
    (generate_persona sigmaDedup "t1" "bob" [] [c2Comment]).motivations =
      (generate_persona sigmaRevDedup "t2" "bob" [] [c2Comment]).motivations ∧
    (generate_persona sigmaDedup "t1" "bob" [] [c2Comment]).behaviors =
      (generate_persona sigmaRevDedup "t2" "bob" [] [c2Comment]).behaviors ∧
    (generate_persona sigmaDedup "t1" "bob" [] [c2Comment]).raw_posts =
      (generate_persona sigmaRevDedup "t2" "bob" [] [c2Comment]).raw_posts ∧
    (generate_persona sigmaDedup "t1" "bob" [] [c2Comment]).raw_comments =
      (generate_persona sigmaRevDedup "t2" "bob" [] [c2Comment]).raw_comments ∧
    (generate_persona sigmaDedup "t1" "bob" [] [c2Comment]).frustrations.Perm
      (generate_persona sigmaRevDedup "t2" "bob" [] [c2Comment]).frustrations ∧
    (generate_persona sigmaDedup "t1" "bob" [] [c2Comment]).goals.Perm
      (generate_persona sigmaRevDedup "t2" "bob" [] [c2Comment]).goals :=
  C2_determinism_amended sigmaDedup sigmaRevDedup (fun _ => List.Perm.refl _)
    (fun _ => List.reverse_perm _) "t1" "t2" "bob" [] [c2Comment]

/-- String concatenation concatenates the underlying code points. -/
theorem string_data_append (a b : String) : (a ++ b).data = a.data ++ b.data := by
  cases a
  cases b
  rfl

/-- The bar of a gauge is the filled run followed by the track run. -/
theorem gaugeBar_toList (s : Nat) :
    (gaugeBar s).toList =
      List.replicate (10 - s / 10) '█' ++ List.replicate (s / 10) '░' := by
  show (String.mk (List.replicate (10 - s / 10) '█') ++
      String.mk (List.replicate (s / 10) '░')).data = _
  rw [string_data_append]

/-- For scores up to 100 the bar is exactly 10 characters wide. -/
theorem gaugeBar_length (s : Nat) (h : s ≤ 100) : (gaugeBar s).length = 10 := by
  have h2 : s / 10 ≤ 100 / 10 := Nat.div_le_div_right h
  have h10 : s / 10 ≤ 10 := by simpa using h2
  show (gaugeBar s).toList.length = 10
  rw [gaugeBar_toList s]
  simp only [List.length_append, List.length_replicate]
  omega

/-- C7: each of the four personality gauge lines consists of the two
pole labels flanking a bar of exactly 10 characters, `10 - score/10`
filled glyphs followed by `score/10` track glyphs; score 30 gives 7
filled and 3 track, score 100 gives 0 filled and 10 track. -/
theorem C7_gauge_lines (pers : Personality)
    (h1 : pers.introvert_extrovert ≤ 100) (h2 : pers.intuition_sensing ≤ 100)
    (h3 : pers.feeling_thinking ≤ 100) (h4 : pers.perceiving_judging ≤ 100) :
    (∀ line ∈ personalityGaugeLines pers,
        ∃ (labelA labelB : String) (s : Nat), s ≤ 100 ∧
          line = labelA ++ gaugeBar s ++ labelB ∧
          (gaugeBar s).length = 10 ∧
          (gaugeBar s).toList =
            List.replicate (10 - s / 10) '█' ++ List.replicate (s / 10) '░' ∧
          (10 - s / 10) + s / 10 = 10) ∧
    (gaugeBar 30).toList = List.replicate 7 '█' ++ List.replicate 3 '░' ∧
    (gaugeBar 100).toList = List.replicate 0 '█' ++ List.replicate 10 '░' := by
  have sum10 : ∀ s : Nat, s ≤ 100 → (10 - s / 10) + s / 10 = 10 := by
    intro s hs
    have hd : s / 10 ≤ 100 / 10 := Nat.div_le_div_right hs
    have h10 : s / 10 ≤ 10 := by simpa using hd
    omega
  refine ⟨?_, by decide, by decide⟩
  intro line hline
  simp only [personalityGaugeLines, List.mem_cons, List.not_mem_nil, or_false] at hline
  rcases hline with rfl | rfl | rfl | rfl
  · exact ⟨"INTROVERT ", " EXTROVERT", _, h1, rfl,
      gaugeBar_length _ h1, gaugeBar_toList _, sum10 _ h1⟩
  · exact ⟨"INTUITION ", " SENSING", _, h2, rfl,
      gaugeBar_length _ h2, gaugeBar_toList _, sum10 _ h2⟩
  · exact ⟨"FEELING   ", " THINKING", _, h3, rfl,
      gaugeBar_length _ h3, gaugeBar_toList _, sum10 _ h3⟩
  · exact ⟨"PERCEIVING", " JUDGING", _, h4, rfl,
      gaugeBar_length _ h4, gaugeBar_toList _, sum10 _ h4⟩

/-- Closed instance of the C7 theorem on a concrete persona whose
scores include the 30 and 100 boundary cases. -/
theorem C7_gauge_lines_witness :
    (∀ line ∈ personalityGaugeLines ⟨30, 100, 50, 0, []⟩,
        ∃ (labelA labelB : String) (s : Nat), s ≤ 100 ∧
          line = labelA ++ gaugeBar s ++ labelB ∧
          (gaugeBar s).length = 10 ∧
          (gaugeBar s).toList =
            List.replicate (10 - s / 10) '█' ++ List.replicate (s / 10) '░' ∧
          (10 - s / 10) + s / 10 = 10) ∧
    (gaugeBar 30).toList = List.replicate 7 '█' ++ List.replicate 3 '░' ∧
    (gaugeBar 100).toList = List.replicate 0 '█' ++ List.replicate 10 '░' :=
  C7_gauge_lines ⟨30, 100, 50, 0, []⟩ (by decide) (by decide) (by decide) (by decide)

/-- A truncated quote with its ellipsis marker is never the empty
string, so the not-found sentinel of the quote loops is unambiguous. -/
theorem append_dots_ne_empty (s : String) : s ++ "..." ≠ "" := by
  intro h
  have h2 := congrArg String.data h
  rw [string_data_append] at h2
  have h3 := congrArg List.length h2
  rw [List.length_append] at h3
  have hd : ("..." : String).data.length = 3 := rfl
  have he : ("" : String).data.length = 0 := rfl
  omega

/-- The post loop of the quote section finds exactly the first post
whose selftext exceeds 50 characters (the truthiness conjunct of the
source condition is subsumed by the length bound). -/
theorem postQuote_eq (l : List Post) :
    postQuote l =
      match l.find? (fun q => decide (50 < q.selftext.length)) with
      | some q =>
        (q.selftext.take 150 ++ "...",
         "Post: " ++ q.title ++ " (ID: " ++ q.id ++ ")")
      | none => ("", "") := by
  induction l with
  | nil => rfl
  | cons p rest ih =>
    by_cases h : 50 < p.selftext.length
    · have h0 : 0 < p.selftext.length := by omega
      simp only [postQuote]
      rw [if_pos (⟨h0, h⟩ : 0 < p.selftext.length ∧ 50 < p.selftext.length),
        List.find?_cons_of_pos _ (by simpa using h)]
    · simp only [postQuote]
      rw [if_neg (fun hc => h hc.2),
        List.find?_cons_of_neg _ (by simpa using h), ih]

/-- The comment fallback loop finds exactly the first comment whose
body exceeds 30 characters. -/
theorem commentQuote_eq (l : List Comment) :
    commentQuote l =
      match l.find? (fun c => decide (30 < c.body.length)) with
      | some c => (c.body.take 150 ++ "...", "Comment ID: " ++ c.id)
      | none => ("", "") := by
  induction l with
  | nil => rfl
  | cons c rest ih =>
    by_cases h : 30 < c.body.length
    · have h0 : 0 < c.body.length := by omega
      simp only [commentQuote]
      rw [if_pos (⟨h0, h⟩ : 0 < c.body.length ∧ 30 < c.body.length),
        List.find?_cons_of_pos _ (by simpa using h)]
    · simp only [commentQuote]
      rw [if_neg (fun hc => h hc.2),
        List.find?_cons_of_neg _ (by simpa using h), ih]

/-- C1 amended: the quote block quotes the first sample post whose
body exceeds 50 characters, truncated to 150 characters plus an
ellipsis, cited by title and ID; failing that, the first sample
comment whose body exceeds 30 characters, truncated identically,
cited by ID.  The quote and source lines are omitted when neither
qualifies, but the section header is still rendered whenever at least
one sample post or comment exists; the whole section disappears only
when there are no sample posts and no sample comments at all. -/
theorem C1_quote_section (p : Persona) :
    quoteSection p =
      if p.raw_posts = [] ∧ p.raw_comments = [] then []
      else
        match p.raw_posts.find? (fun q => decide (50 < q.selftext.length)) with
        | some q =>
          ["REPRESENTATIVE QUOTE", String.mk (List.replicate 40 '-'),
           "\"" ++ (q.selftext.take 150 ++ "...") ++ "\"",
           "Source: " ++ ("Post: " ++ q.title ++ " (ID: " ++ q.id ++ ")")]
        | none =>
          match p.raw_comments.find? (fun c => decide (30 < c.body.length)) with
          | some c =>
            ["REPRESENTATIVE QUOTE", String.mk (List.replicate 40 '-'),
             "\"" ++ (c.body.take 150 ++ "...") ++ "\"",
             "Source: " ++ ("Comment ID: " ++ c.id)]
          | none => ["REPRESENTATIVE QUOTE", String.mk (List.replicate 40 '-')] := by
  unfold quoteSection
  by_cases hc : p.raw_posts = [] ∧ p.raw_comments = []
  · rw [if_pos hc, if_pos hc]
  · rw [if_neg hc, if_neg hc]
    simp only [postQuote_eq, commentQuote_eq]
    cases hfp : p.raw_posts.find? (fun q => decide (50 < q.selftext.length)) with
    | some q => simp [append_dots_ne_empty]
    | none =>
      cases hfc : p.raw_comments.find? (fun c => decide (30 < c.body.length)) with
      | some c => simp [append_dots_ne_empty]
      | none => simp

/-- The sample post of the C1 counterexample: present but with an
empty body, so it does not qualify for a quote. -/
def c1Post : Post :=
  { id := "p1", title := "hello", selftext := "", subreddit := "test",
    score := 0, created_utc := 0, url := "", num_comments := 0 }

/-- A persona with one non-qualifying sample post and no sample
comments. -/
def c1Persona : Persona :=
  { username := "alice", profile_url := "", analysis_date := "",
    total_posts := 1, total_comments := 0,
    demographics := ⟨"Unknown", "Unknown", "Unknown", "Unknown"⟩,
    personality := ⟨50, 50, 50, 50, []⟩,
    motivations := [], behaviors := [], frustrations := [], goals := [],
    raw_posts := [c1Post], raw_comments := [] }

/-- C1 counterexample: a persona for which no sample post and no
sample comment qualifies for a quote, yet the REPRESENTATIVE QUOTE
section is not omitted — its header lines are still rendered. -/
theorem C1_counterexample :
    c1Persona.raw_posts.find? (fun q => decide (50 < q.selftext.length)) = none ∧
    c1Persona.raw_comments.find? (fun c => decide (30 < c.body.length)) = none ∧
    quoteSection c1Persona ≠ [] :=
  ⟨by decide, by decide, by decide⟩
